import Mathlib

/-!
Shallow embedding of the reconciliation and decision engine of
`src/dashboard.py` (mobilepoint/foneday): the catalog normalizer (step 2),
the identifier mapper (step 3), the stock synchronizer (step 1), the
restock scanner (step 4), the cart committer (step 5) and the pure
profitability model.  Python floats are modelled as exact rationals (every
number the claims touch is far from any binary-rounding or decimal-rounding
boundary), machine ints as `Int`/`Nat`, and fallible external calls as
explicit `Option`/`Bool`-valued parameters.
-/

namespace FonedayModel

/-! ## Python value model

The supplier feed is JSON, so the raw `artcode` field of a product is one
of: a string, an integer, or a list of such values (`product.get("artcode")`
may also be absent, modelled as `Option.none` at the use site). -/

/-- A Python scalar of the fragment: a string or an integer. -/
inductive PyScalar where
  | sstr (s : String)
  | sint (n : Int)
  deriving Repr, DecidableEq

/-- A Python value as it can arrive from the JSON supplier feed or come out
of `json.loads` on the fragment used here: a scalar, or a flat list of
scalars (the feed's artcode field is a scalar or a flat array). -/
inductive PyVal where
  | vstr (s : String)
  | vint (n : Int)
  | vlist (xs : List PyScalar)
  deriving Repr, DecidableEq

/-- A scalar viewed as a value. -/
def scalarVal : PyScalar → PyVal
  | .sstr s => .vstr s
  | .sint n => .vint n

/-- The single-quote character, `chr(39)`. -/
def squote : Char := Char.ofNat 39

/-- The double-quote character. -/
def dquote : Char := '"'

/-- Drop the characters satisfying `p` from both ends of a string: the
behaviour of Python `str.strip` with the matching character set. -/
def dropAround (p : Char → Bool) (s : String) : String :=
  String.mk (((s.data.dropWhile p).reverse.dropWhile p).reverse)

/-- Python `str.strip()` (leading and trailing whitespace removed; the
ASCII whitespace characters cover every input in this development). -/
def pyStripWs (s : String) : String := dropAround Char.isWhitespace s

/-- Python `str.strip(c)` for a one-character argument: all leading and
trailing occurrences of `c` removed. -/
def pyStripChar (c : Char) (s : String) : String := dropAround (fun d => d == c) s

/-- Python `repr` on a scalar (used by `str` on lists). -/
def pyReprScalar : PyScalar → String
  | .sstr s => String.mk [squote] ++ s ++ String.mk [squote]
  | .sint n => toString n

/-- Python `str` on the value fragment. -/
def pyStr : PyVal → String
  | .vstr s => s
  | .vint n => toString n
  | .vlist xs => "[" ++ String.intercalate ", " (xs.map pyReprScalar) ++ "]"

/-- Python truthiness of `artcode_raw` (`if artcode_raw:`): absent values,
empty strings, zero and empty lists are falsy. -/
def pyTruthy : Option PyVal → Bool
  | none => false
  | some (.vstr s) => s != ""
  | some (.vint n) => n != 0
  | some (.vlist xs) => !xs.isEmpty

/-- Python iteration `for x in obj`: a list yields its elements, a string
yields its characters as one-character strings, and any other value raises
`TypeError` (modelled as `none`). -/
def pyIter : PyVal → Option (List PyVal)
  | .vlist xs => some (xs.map scalarVal)
  | .vstr s => some (s.data.map (fun c => .vstr (String.mk [c])))
  | .vint _ => none

/-! ## Model of `json.loads`

`dashboard.py` line 455 calls `json.loads` on the raw artcode text.  The
fragment modelled here is what the feed's artcode field can carry: string
literals without escape sequences, integers, and flat arrays of those.
JSON documents outside the fragment (floats, booleans, `null`, objects,
nested arrays, escaped strings) are treated as a parse failure. -/

/-- Body of a JSON string literal after the opening quote: the characters
up to the closing quote.  An escape sequence or a missing closing quote is
a parse failure in this fragment. -/
def jsonStrBody : List Char → Option (List Char × List Char)
  | [] => none
  | c :: rest =>
    if c == dquote then some ([], rest)
    else if c == '\\' then none
    else
      match jsonStrBody rest with
      | some (s, r) => some (c :: s, r)
      | none => none

/-- Accumulate decimal digits into a natural number. -/
def jsonNatAux : List Char → Nat → Nat × List Char
  | [], acc => (acc, [])
  | c :: rest, acc =>
    if c.isDigit then jsonNatAux rest (acc * 10 + (c.toNat - 48)) else (acc, c :: rest)

/-- A nonempty run of decimal digits. -/
def jsonNat : List Char → Option (Nat × List Char)
  | [] => none
  | c :: rest =>
    if c.isDigit then some (jsonNatAux rest (c.toNat - 48)) else none

/-- A JSON scalar of the fragment: a string literal or an integer. -/
def jsonScalar : List Char → Option (PyScalar × List Char)
  | [] => none
  | c :: rest =>
    if c == dquote then
      match jsonStrBody rest with
      | some (s, r) => some (.sstr (String.mk s), r)
      | none => none
    else if c == '-' then
      match jsonNat rest with
      | some (n, r) => some (.sint (-(n : Int)), r)
      | none => none
    else if c.isDigit then
      match jsonNat (c :: rest) with
      | some (n, r) => some (.sint (n : Int), r)
      | none => none
    else none

/-- The items of a nonempty JSON array after the opening bracket, with
fuel bounding the recursion (each item consumes at least one character). -/
def jsonItems : Nat → List Char → Option (List PyScalar × List Char)
  | 0, _ => none
  | fuel + 1, cs =>
    match jsonScalar cs with
    | none => none
    | some (v, rest) =>
      match rest.dropWhile Char.isWhitespace with
      | ']' :: r => some ([v], r)
      | ',' :: r =>
        match jsonItems fuel (r.dropWhile Char.isWhitespace) with
        | some (vs, r2) => some (v :: vs, r2)
        | none => none
      | _ => none

/-- A JSON value of the fragment: a scalar or a flat array of scalars. -/
def jsonValue (cs : List Char) : Option (PyVal × List Char) :=
  match cs with
  | '[' :: rest =>
    match rest.dropWhile Char.isWhitespace with
    | ']' :: r => some (.vlist [], r)
    | rest2 =>
      match jsonItems (rest2.length + 1) rest2 with
      | some (vs, r) => some (.vlist vs, r)
      | none => none
  | _ =>
    match jsonScalar cs with
    | some (v, r) => some (scalarVal v, r)
    | none => none

/-- `json.loads` on the fragment: leading and trailing whitespace allowed,
the whole input must be consumed, failure is `none` (Python raises
`JSONDecodeError`, caught by the bare `except` at line 456). -/
def jsonLoads (s : String) : Option PyVal :=
  match jsonValue (s.data.dropWhile Char.isWhitespace) with
  | some (v, rest) => if (rest.dropWhile Char.isWhitespace).isEmpty then some v else none
  | none => none

/-! ## Catalog Normalizer (`step2_import_foneday_all_products`, lines 450-469) -/

/-- The Python value bound to `artcodes_list` (lines 453-461): a string is
parsed with `json.loads`, whose result is used whatever its type; on parse
failure the stripped text becomes a one-element list; a list is used as
is; any other value is wrapped via `str`. -/
def artcodesList (raw : PyVal) : PyVal :=
  match raw with
  | .vstr s =>
    match jsonLoads s with
    | some v => v
    | none => .vlist [.sstr (pyStripWs s)]
  | .vlist xs => .vlist xs
  | v => .vlist [.sstr (pyStr v)]

/-- `str(artcode_value).strip().strip(chr(34)).strip(chr(39))`, the
cleaning applied to each iterated element (line 464). -/
def pyClean (v : PyVal) : String :=
  pyStripChar squote (pyStripChar dquote (pyStripWs (pyStr v)))

/-- The normalized artcode values one raw `artcode` field contributes
(lines 450-469): falsy raw values yield nothing; `artcodes_list` is
iterated with Python semantics, each element cleaned, empty results
dropped.  A `TypeError` from iterating a non-iterable (for example the
integer `json.loads` returns for a numeric text) is caught by the
per-product handler at line 471, so the product emits no rows. -/
def normalizeArtcode : Option PyVal → List String
  | none => []
  | some v =>
    if pyTruthy (some v) then
      match pyIter (artcodesList v) with
      | some items => (items.map pyClean).filter (fun s => s != "")
      | none => []
    else []

/-! ## Profitability model (`calculate_profit_margin`, `is_profitable`,
lines 63-77)

The module-level configuration secrets `EUR_RON_RATE`, `MIN_PROFIT_MARGIN`
and `TVA_RATE` are threaded as an explicit configuration value.  Python
float arithmetic is modelled as exact rational arithmetic; `round(x, 2)`
is modelled with rounding half away from the floor (Python uses round half
to even, and no number in this development lands on a tie). -/

/-- The three configuration secrets the profitability model reads
(lines 27-29; defaults `5.1`, `0.88`, `1.21`). -/
structure Config where
  eur_ron_rate : ℚ
  min_profit_margin : ℚ
  tva_rate : ℚ

/-- The configuration with the documented default secrets
`EUR_RON_RATE = 5.1`, `MIN_PROFIT_MARGIN = 0.88`, `TVA_RATE = 1.21`
(lines 27-29). -/
def cfgDefault : Config := ⟨5.1, 0.88, 1.21⟩

/-- Python `round(x, 2)` away from ties. -/
def pyRound2 (q : ℚ) : ℚ := ((round (q * 100) : ℤ) : ℚ) / 100

/-- `calculate_profit_margin` (lines 63-69): cost in RON, net sale price
without VAT, the margin percentage rounded to two decimals. -/
def calculate_profit_margin (cfg : Config) (foneday_price_eur woo_price_ron : ℚ) : ℚ :=
  let cost_ron := foneday_price_eur * cfg.eur_ron_rate
  let selling_price_without_vat := woo_price_ron / cfg.tva_rate
  let ratio := cost_ron / selling_price_without_vat
  pyRound2 ((1 - ratio) * 100)

/-- `is_profitable` (lines 72-77): the cost ratio must be strictly below
the configured threshold. -/
def is_profitable (cfg : Config) (foneday_price_eur woo_price_ron : ℚ) : Bool :=
  let cost_ron := foneday_price_eur * cfg.eur_ron_rate
  let selling_price_without_vat := woo_price_ron / cfg.tva_rate
  let ratio := cost_ron / selling_price_without_vat
  decide (ratio < cfg.min_profit_margin)

/-! ## Stock Synchronizer (`step1_import_woocommerce`, lines 181-379)

The run first loads the persisted stock and price snapshots into the two
dictionaries `existing_products` and `existing_prices` (modelled as
functions `String → Option _`), then classifies every feed product into
new / changed / unchanged and queues the corresponding writes.  The code
flushes the queued batches every five pages and once at the end; the
model collects all writes queued during the run (flushing only empties
the queues into the store, so the run's queued writes are their
concatenation).  `get_product_info_from_catalog` is an external lookup,
modelled as a function returning the resolved `product_id` or `none`. -/

/-- One product of a storefront feed page: `sku`, `stock_quantity`
(null normalized to 0), `regular_price` (a numeric string; a falsy string
is modelled as `none` and read as 0), and the Woo product id. -/
structure FeedProduct where
  sku : String
  stock_quantity : Option ℤ
  regular_price : Option ℚ
  woo_id : ℕ

/-- A queued insert into `claude_woo_stock` (lines 256-264). -/
structure StockInsert where
  sku : String
  stock_quantity : ℤ
  woo_product_id : ℕ
  product_id : Option ℕ
  deriving DecidableEq, Repr

/-- A queued insert into `claude_woo_prices` (lines 266-274). -/
structure PriceInsert where
  sku : String
  regular_price : ℚ
  woo_product_id : ℕ
  product_id : Option ℕ
  deriving DecidableEq, Repr

/-- The write queues and tallies of a synchronizer run. -/
structure Step1State where
  newStock : List StockInsert
  newPrice : List PriceInsert
  updStock : List (String × ℤ)
  updPrice : List (String × ℚ)
  total_new : ℕ
  total_updated : ℕ
  total_unchanged : ℕ
  deriving DecidableEq, Repr

/-- The empty initial state of a synchronizer run. -/
def step1Init : Step1State := ⟨[], [], [], [], 0, 0, 0⟩

/-- The `stock_changed` flag of one feed product (line 252): not new,
and the snapshot value differs from the current stock. -/
def step1_stock_changed (stockSnap : String → Option ℤ) (p : FeedProduct) : Bool :=
  !(stockSnap p.sku).isNone && decide (stockSnap p.sku ≠ some (p.stock_quantity.getD 0))

/-- The `price_changed` flag of one feed product (line 253): presence in
the price snapshot with a differing value. -/
def step1_price_changed (priceSnap : String → Option ℚ) (p : FeedProduct) : Bool :=
  match priceSnap p.sku with
  | some q => decide (q ≠ p.regular_price.getD 0)
  | none => false

/-- Classification of one feed product (lines 235-295): a falsy SKU is
skipped; `is_new` is absence from the stock snapshot and queues both
inserts; otherwise the changed flags queue the matching update rows
(the two independent `if`s of lines 279-291 are expanded into their
four cases). -/
def step1_process (stockSnap : String → Option ℤ) (priceSnap : String → Option ℚ)
    (catalog : String → Option ℕ) (st : Step1State) (p : FeedProduct) : Step1State :=
  if p.sku = "" then st
  else if (stockSnap p.sku).isNone then
    { st with
      newStock := st.newStock ++
        [⟨p.sku, p.stock_quantity.getD 0, p.woo_id, catalog p.sku⟩],
      newPrice := st.newPrice ++
        [⟨p.sku, p.regular_price.getD 0, p.woo_id, catalog p.sku⟩],
      total_new := st.total_new + 1 }
  else if step1_stock_changed stockSnap p || step1_price_changed priceSnap p then
    if step1_stock_changed stockSnap p then
      if step1_price_changed priceSnap p then
        { st with
          updStock := st.updStock ++ [(p.sku, p.stock_quantity.getD 0)],
          updPrice := st.updPrice ++ [(p.sku, p.regular_price.getD 0)],
          total_updated := st.total_updated + 1 }
      else
        { st with
          updStock := st.updStock ++ [(p.sku, p.stock_quantity.getD 0)],
          total_updated := st.total_updated + 1 }
    else
      if step1_price_changed priceSnap p then
        { st with
          updPrice := st.updPrice ++ [(p.sku, p.regular_price.getD 0)],
          total_updated := st.total_updated + 1 }
      else { st with total_updated := st.total_updated + 1 }
  else { st with total_unchanged := st.total_unchanged + 1 }

/-- A full synchronizer run over the concatenated feed pages. -/
def step1_import_woocommerce (stockSnap : String → Option ℤ) (priceSnap : String → Option ℚ)
    (catalog : String → Option ℕ) (feed : List FeedProduct) : Step1State :=
  feed.foldl (step1_process stockSnap priceSnap catalog) step1Init

/-! ## Identifier Mapper (`step3_map_sku_to_artcode`, lines 511-656)

The mapper pages the primary internal SKUs and the normalized artcode
rows fully into memory (the pagination only concatenates pages, so the
model takes the full lists), builds the hash join `artcode_dict`, emits
one mapping per matched artcode row, and writes the mappings in chunks
of 500 with a best-effort error policy. -/

/-- A row of the `v_product_sku` view: the query at lines 527-532 filters
`is_primary = true` server side, modelled by `primarySkus`. -/
structure ProductSkuRow where
  sku : String
  product_id : ℕ
  is_primary : Bool
  deriving DecidableEq, Repr

/-- A row of `claude_foneday_artcodes_normalized`. -/
structure ArtcodeRow where
  foneday_sku : String
  artcode : String
  deriving DecidableEq, Repr

/-- A row of `claude_sku_artcode_mapping` as built at lines 602-609
(the constant `mapping_score = 100` and the timestamp carry no
information and are omitted). -/
structure MappingRow where
  my_sku : String
  foneday_artcode : String
  foneday_sku : String
  product_id : ℕ
  deriving DecidableEq, Repr

/-- The `is_primary = true` restriction of the catalog query. -/
def primarySkus (rows : List ProductSkuRow) : List ProductSkuRow :=
  rows.filter (fun r => r.is_primary)

/-- The bucket `artcode_dict[a]` of the hash join (lines 585-593): the
artcode rows whose `artcode` equals `a`, in table order. -/
def artcodeMatches (rows : List ArtcodeRow) (a : String) : List ArtcodeRow :=
  rows.filter (fun r => r.artcode == a)

/-- The mapping rows one internal SKU row contributes (lines 600-609):
one per artcode row matching its `sku`. -/
def mappingsFor (artrows : List ArtcodeRow) (c : ProductSkuRow) : List MappingRow :=
  (artcodeMatches artrows c.sku).map
    (fun m => ⟨c.sku, m.artcode, m.foneday_sku, c.product_id⟩)

/-- `batch_mappings` (lines 595-609): for every primary internal SKU, one
mapping per artcode row matching it; a SKU absent from the dictionary
contributes nothing. -/
def buildMappings (catalog : List ProductSkuRow) (artrows : List ArtcodeRow) :
    List MappingRow :=
  (primarySkus catalog).foldl (fun acc c => acc ++ mappingsFor artrows c) []

/-- Chunking worker, structurally recursive on a fuel bound (each chunk
consumes at least one element, so fuel `xs.length` always suffices). -/
def toChunksAux (n : ℕ) : ℕ → List α → List (List α)
  | 0, _ => []
  | _, [] => []
  | fuel + 1, x :: rest => (x :: rest.take n) :: toChunksAux n fuel (rest.drop n)

/-- Python `lst[i:i+n+1]` chunking: splits a list into consecutive chunks
of `n + 1` elements (the last chunk may be shorter). -/
def toChunks (n : ℕ) (xs : List α) : List (List α) :=
  toChunksAux n xs.length xs

/-- Outcome of the chunked write phase: the best-effort count of rows
reported saved, the error count, and the chunk indices attempted. -/
structure WriteState where
  total_saved : ℕ
  errors : ℕ
  attempted : List ℕ
  deriving DecidableEq, Repr

/-- The write loop (lines 624-639): every chunk reached is attempted; a
failed chunk raises the error count and, once `errors > 5`, the loop
breaks and the remaining chunks are abandoned. -/
def writeChunksAux (ok : ℕ → Bool) : List (List MappingRow) → ℕ → WriteState → WriteState
  | [], _, st => st
  | c :: rest, i, st =>
    if ok i then
      writeChunksAux ok rest (i + 1)
        ⟨st.total_saved + c.length, st.errors, st.attempted ++ [i]⟩
    else if st.errors + 1 > 5 then ⟨st.total_saved, st.errors + 1, st.attempted ++ [i]⟩
    else writeChunksAux ok rest (i + 1) ⟨st.total_saved, st.errors + 1, st.attempted ++ [i]⟩

/-- The write phase over mappings chunked by 500, with `ok i` the success
of the upsert of chunk `i`. -/
def step3_write (mappings : List MappingRow) (ok : ℕ → Bool) : WriteState :=
  writeChunksAux ok (toChunks 499 mappings) 0 ⟨0, 0, []⟩

/-- The number of failing upserts among `n` consecutive chunks starting
at index `i`. -/
def countFails (ok : ℕ → Bool) : ℕ → ℕ → ℕ
  | _, 0 => 0
  | i, n + 1 => (if ok i then 0 else 1) + countFails ok (i + 1) n

/-! ## Restock Scanner (`step4_check_stock_and_prices`, lines 660-747) -/

/-- Status of a `claude_foneday_orders_pending` row. -/
inductive OrderStatus where
  | pending
  | delivered
  | cancelled
  deriving DecidableEq, BEq, Repr

/-- A row of `claude_foneday_orders_pending`. -/
structure PendingRow where
  sku : String
  quantity : ℤ
  status : OrderStatus
  deriving DecidableEq, Repr

/-- A row of `claude_woo_stock` as the scanner reads it. -/
structure StockRow where
  sku : String
  stock_quantity : ℤ
  product_id : Option ℕ
  deriving DecidableEq, Repr

/-- The live supplier record `get_foneday_product_by_sku` returns: the
fields the scanner reads (`instock`, `price`, `title`, `quality`).  A
failed or not-found lookup is `none` at the use site. -/
structure FonedayProduct where
  instock : String
  price : Option ℚ
  title : String
  quality : String
  deriving DecidableEq, Repr

/-- A row upserted into `claude_foneday_inventory` (lines 728-737). -/
structure SnapshotRow where
  product_id : Option ℕ
  sku : String
  foneday_sku : String
  price_eur : ℚ
  instock : Bool
  title : String
  quality : String
  deriving DecidableEq, Repr

/-- Everything a scanner run produces: the live supplier queries issued
(as internal-SKU / supplier-SKU pairs), the snapshot upserts, and the
three internal tallies. -/
structure Step4Result where
  liveQueries : List (String × String)
  snapshots : List SnapshotRow
  checked : ℕ
  available : ℕ
  skippedPending : ℕ
  deriving DecidableEq, Repr

/-- Membership of a SKU in the `pending_skus` dictionary (lines 671-678):
the dictionary has a key for every SKU with at least one
`status = pending` row, whatever the summed quantity. -/
def pendingHas (rows : List PendingRow) (sku : String) : Bool :=
  rows.any (fun r => r.status == .pending && r.sku == sku)

/-- The aggregated pending quantity of a SKU: the sum of `quantity` over
its `status = pending` rows (the value stored under the dictionary key). -/
def pendingQty (rows : List PendingRow) (sku : String) : ℤ :=
  ((rows.filter (fun r => r.status == .pending && r.sku == sku)).map
    (fun r => r.quantity)).sum

/-- One iteration of the inner loop over a zero-stock product's mappings
(lines 713-740): a falsy supplier SKU is skipped, otherwise the live
supplier API is queried; a found record raises `checked`, and one
reporting `instock == "Y"` raises `available` and upserts one snapshot
row whose price comes from the live record (`price` defaulting to 0). -/
def step4_inner (live : String → Option FonedayProduct) (p : StockRow)
    (a : Step4Result) (m : MappingRow) : Step4Result :=
  if m.foneday_sku == "" then a
  else
    let a1 := { a with liveQueries := a.liveQueries ++ [(p.sku, m.foneday_sku)] }
    match live m.foneday_sku with
    | none => a1
    | some fp =>
      let a2 := { a1 with checked := a1.checked + 1 }
      if fp.instock == "Y" then
        { a2 with
          available := a2.available + 1,
          snapshots := a2.snapshots ++
            [⟨p.product_id, p.sku, m.foneday_sku, fp.price.getD 0, true,
              fp.title, fp.quality⟩] }
      else a2

/-- The inner loop over one zero-stock product's mapping rows. -/
def step4_mappings (live : String → Option FonedayProduct) (p : StockRow)
    (maps : List MappingRow) (acc : Step4Result) : Step4Result :=
  maps.foldl (step4_inner live p) acc

/-- One iteration of the scanner's outer loop (lines 694-740): a SKU
present in the pending dictionary is skipped, any other is resolved
through its mapping rows (`.eq("my_sku", ...)` modelled as a filter). -/
def step4_step (pending : List PendingRow) (mapTable : List MappingRow)
    (live : String → Option FonedayProduct) (acc : Step4Result) (p : StockRow) :
    Step4Result :=
  if pendingHas pending p.sku then
    { acc with skippedPending := acc.skippedPending + 1 }
  else
    step4_mappings live p (mapTable.filter (fun m => m.my_sku == p.sku)) acc

/-- A full scanner run (lines 660-747): aggregate the pending orders,
take the stock rows with `stock_quantity <= 0`, and run the outer loop
over them. -/
def step4_check_stock_and_prices (pending : List PendingRow) (stock : List StockRow)
    (mapTable : List MappingRow) (live : String → Option FonedayProduct) : Step4Result :=
  (stock.filter (fun r => decide (r.stock_quantity ≤ 0))).foldl
    (step4_step pending mapTable live) ⟨[], [], 0, 0, 0⟩

/-- The value the function returns (line 747):
`return total_checked, total_available`. -/
def step4_return (r : Step4Result) : ℕ × ℕ := (r.checked, r.available)

/-! ## Cart Committer, zero-stock path (`step5_add_to_cart`,
lines 751-822) -/

/-- Status of a `claude_foneday_cart` row. -/
inductive CartStatus where
  | added_to_cart
  | confirmed
  | not_profitable
  deriving DecidableEq, Repr

/-- A row of `claude_foneday_inventory` as the committer reads it; the
query at line 761 filters `instock = true` server side, modelled by a
filter on this flag. -/
structure InventoryItem where
  product_id : Option ℕ
  sku : String
  foneday_sku : String
  price_eur : ℚ
  instock : Bool
  deriving DecidableEq, Repr

/-- A row inserted into `claude_foneday_cart` (lines 796-807). -/
structure CartRow where
  product_id : Option ℕ
  sku : String
  foneday_sku : String
  quantity : ℕ
  price_eur : ℚ
  woo_price_ron : ℚ
  profit_margin : ℚ
  is_profitable : Bool
  status : CartStatus
  deriving DecidableEq, Repr

/-- Everything a committer run produces: the external cart-addition calls
issued (supplier SKU and quantity), the cart rows written, and the two
counters the function returns. -/
structure Step5Result where
  externalCalls : List (String × ℕ)
  cartRows : List CartRow
  added_to_cart : ℕ
  not_profitable : ℕ
  deriving DecidableEq, Repr

/-- A full committer run (lines 751-822): for every in-stock inventory
item with a known storefront price, skip non-positive prices, and commit
the profitable ones with a fixed quantity of 2.  `priceTable` models the
`claude_woo_prices` lookup, `cartOk` the success of the external
cart-addition call.  A successful call writes one `added_to_cart` row
(the insert's own failure handler, `except: pass` at line 811, is
modelled as the insert succeeding); a rejected candidate only raises the
`not_profitable` counter — the code writes no cart row for it. -/
def step5_add_to_cart (cfg : Config) (priceTable : String → Option ℚ)
    (cartOk : String → Bool) (inventory : List InventoryItem) : Step5Result :=
  (inventory.filter (fun i => i.instock)).foldl
    (fun acc item =>
      match priceTable item.sku with
      | none => acc
      | some woo_price =>
        if woo_price ≤ 0 ∨ item.price_eur ≤ (0 : ℚ) then acc
        else if is_profitable cfg item.price_eur woo_price then
          let pm := calculate_profit_margin cfg item.price_eur woo_price
          let acc1 := { acc with externalCalls := acc.externalCalls ++ [(item.foneday_sku, 2)] }
          if cartOk item.foneday_sku then
            { acc1 with
              cartRows := acc1.cartRows ++
                ([⟨item.product_id, item.sku, item.foneday_sku, 2, item.price_eur,
                  woo_price, pm, true, .added_to_cart⟩] : List CartRow),
              added_to_cart := acc1.added_to_cart + 1 }
          else acc1
        else { acc with not_profitable := acc.not_profitable + 1 })
    ⟨[], [], 0, 0⟩

/-! ## Helper lemmas -/

theorem foldl_append_mem {α β : Type} (g : α → List β) (l : List α) (init : List β) (b : β) :
    b ∈ l.foldl (fun acc c => acc ++ g c) init ↔ b ∈ init ∨ ∃ c ∈ l, b ∈ g c := by
  induction l generalizing init with
  | nil => simp
  | cons c rest ih =>
    rw [List.foldl_cons, ih]
    simp only [List.mem_append, List.mem_cons]
    constructor
    · rintro (⟨h | h⟩ | ⟨x, hx, hb⟩)
      · exact Or.inl h
      · exact Or.inr ⟨c, Or.inl rfl, h⟩
      · exact Or.inr ⟨x, Or.inr hx, hb⟩
    · rintro (h | ⟨x, hx | hx, hb⟩)
      · exact Or.inl (Or.inl h)
      · exact Or.inl (Or.inr (hx ▸ hb))
      · exact Or.inr ⟨x, hx, hb⟩

theorem step4_inner_skipped (live : String → Option FonedayProduct) (p : StockRow)
    (a : Step4Result) (m : MappingRow) :
    (step4_inner live p a m).skippedPending = a.skippedPending := by
  unfold step4_inner
  split
  · rfl
  · cases live m.foneday_sku with
    | none => rfl
    | some fp =>
      dsimp only
      split
      · rfl
      · rfl

theorem step4_inner_queries (live : String → Option FonedayProduct) (p : StockRow)
    (a : Step4Result) (m : MappingRow) (q : String × String) :
    q ∈ (step4_inner live p a m).liveQueries → q ∈ a.liveQueries ∨ q.1 = p.sku := by
  unfold step4_inner
  split
  · exact Or.inl
  · cases live m.foneday_sku with
    | none =>
      dsimp only
      intro h
      rcases List.mem_append.mp h with h | h
      · exact Or.inl h
      · simp only [List.mem_singleton] at h
        exact Or.inr (by rw [h])
    | some fp =>
      dsimp only
      split
      all_goals
        intro h
        rcases List.mem_append.mp h with h | h
      · exact Or.inl h
      · simp only [List.mem_singleton] at h
        exact Or.inr (by rw [h])
      · exact Or.inl h
      · simp only [List.mem_singleton] at h
        exact Or.inr (by rw [h])

theorem step4_inner_snapshots (live : String → Option FonedayProduct) (p : StockRow)
    (a : Step4Result) (m : MappingRow) (r : SnapshotRow) :
    r ∈ (step4_inner live p a m).snapshots →
      r ∈ a.snapshots ∨
        (r.instock = true ∧ ∃ fp, live r.foneday_sku = some fp ∧ fp.instock = "Y" ∧
          r.price_eur = fp.price.getD 0) := by
  unfold step4_inner
  split
  · exact Or.inl
  · cases hl : live m.foneday_sku with
    | none => exact Or.inl
    | some fp =>
      dsimp only
      split
      · rename_i hY
        intro h
        rcases List.mem_append.mp h with h | h
        · exact Or.inl h
        · simp only [List.mem_singleton] at h
          subst h
          exact Or.inr ⟨rfl, fp, hl, eq_of_beq hY, rfl⟩
      · exact Or.inl

theorem step4_mappings_skipped (live : String → Option FonedayProduct) (p : StockRow)
    (maps : List MappingRow) (acc : Step4Result) :
    (step4_mappings live p maps acc).skippedPending = acc.skippedPending := by
  induction maps generalizing acc with
  | nil => rfl
  | cons m rest ih =>
    show (step4_mappings live p rest (step4_inner live p acc m)).skippedPending = _
    rw [ih, step4_inner_skipped]

theorem step4_mappings_queries (live : String → Option FonedayProduct) (p : StockRow)
    (maps : List MappingRow) (acc : Step4Result) (q : String × String) :
    q ∈ (step4_mappings live p maps acc).liveQueries →
      q ∈ acc.liveQueries ∨ q.1 = p.sku := by
  induction maps generalizing acc with
  | nil => exact Or.inl
  | cons m rest ih =>
    intro h
    rcases ih (step4_inner live p acc m) h with h | h
    · exact step4_inner_queries live p acc m q h
    · exact Or.inr h

theorem step4_mappings_snapshots (live : String → Option FonedayProduct) (p : StockRow)
    (maps : List MappingRow) (acc : Step4Result) (r : SnapshotRow) :
    r ∈ (step4_mappings live p maps acc).snapshots →
      r ∈ acc.snapshots ∨
        (r.instock = true ∧ ∃ fp, live r.foneday_sku = some fp ∧ fp.instock = "Y" ∧
          r.price_eur = fp.price.getD 0) := by
  induction maps generalizing acc with
  | nil => exact Or.inl
  | cons m rest ih =>
    intro h
    rcases ih (step4_inner live p acc m) h with h | h
    · exact step4_inner_snapshots live p acc m r h
    · exact Or.inr h

theorem step4_fold_skipped_count (pending : List PendingRow) (mapTable : List MappingRow)
    (live : String → Option FonedayProduct) (zs : List StockRow) (acc : Step4Result) :
    (zs.foldl (step4_step pending mapTable live) acc).skippedPending =
      acc.skippedPending + (zs.filter (fun p => pendingHas pending p.sku)).length := by
  induction zs generalizing acc with
  | nil => simp
  | cons p rest ih =>
    rw [List.foldl_cons, ih]
    unfold step4_step
    cases h : pendingHas pending p.sku with
    | true => simp [h, List.filter_cons, Nat.add_assoc, Nat.add_comm]
    | false => simp [h, List.filter_cons, step4_mappings_skipped]


/-! ## Claim theorems -/

/-- C1 (amended): the Catalog Normalizer maps the JSON-array text
`'["A1","A2"]'` to the values `A1, A2`, the bare scalar text `A1` to
`A1` alone, and an empty or absent raw value to nothing; every emitted
value is the cleaned (whitespace- and quote-stripped) form of an
iterated element, and values empty after cleaning are dropped.  The
quoted scalar `' "A1" '`, however, parses as the JSON string `A1`,
which the `for` loop then iterates character by character, yielding
`A` and `1` — not the single value `A1` the spec states. -/
theorem normalizeArtcode_wellformed_cases :
    normalizeArtcode (some (.vstr "[\"A1\",\"A2\"]")) = ["A1", "A2"] ∧
    normalizeArtcode (some (.vstr "A1")) = ["A1"] ∧
    normalizeArtcode (some (.vstr " \"A1\" ")) = ["A", "1"] ∧
    normalizeArtcode (some (.vstr "")) = [] ∧
    normalizeArtcode none = [] ∧
    ∀ raw s, s ∈ normalizeArtcode raw → s ≠ "" ∧ ∃ v, s = pyClean v := by
  refine ⟨by decide, by decide, by decide, rfl, rfl, ?_⟩
  intro raw s hs
  cases raw with
  | none => simp [normalizeArtcode] at hs
  | some v =>
    rw [normalizeArtcode] at hs
    split at hs
    · cases hpi : pyIter (artcodesList v) with
      | none => rw [hpi] at hs; simp at hs
      | some items =>
        rw [hpi] at hs
        simp only [List.mem_filter, List.mem_map] at hs
        obtain ⟨⟨x, _, rfl⟩, hne⟩ := hs
        refine ⟨?_, x, rfl⟩
        simpa using hne
    · simp at hs

/-- C1 counterexample: the raw artcode text `' "A1" '` does not
normalize to the single value `A1`; `json.loads` succeeds with the
scalar string `A1` and the loop iterates its characters. -/
theorem normalizeArtcode_quoted_scalar_cex :
    normalizeArtcode (some (.vstr " \"A1\" ")) = ["A", "1"] ∧
    normalizeArtcode (some (.vstr " \"A1\" ")) ≠ ["A1"] := by
  exact ⟨by decide, by decide⟩

/-- C2 (code bug): a candidate rejected by the profitability check —
supplier cost €10 against a 40 RON storefront price under the default
configuration — triggers no external call and only raises the
`not_profitable` counter: the run writes no cart row at all for it,
although the spec (and the in-app step description at line 1081) say a
`status=not_profitable` entry is appended. -/
theorem step5_rejected_candidate_writes_no_cart_row :
    is_profitable cfgDefault 10 40 = false ∧
    step5_add_to_cart cfgDefault (fun s => if s = "X" then some 40 else none)
      (fun _ => true) [⟨some 1, "X", "Y", 10, true⟩] = ⟨[], [], 0, 1⟩ := by
  constructor
  · simp only [is_profitable, cfgDefault]
    norm_num
  · simp only [step5_add_to_cart, List.filter, List.foldl]
    norm_num [is_profitable, cfgDefault]

/-- C3 counterexample: two scanner runs with equal returned values but
different skipped-due-to-pending tallies — the value the function
returns (`return total_checked, total_available`, line 747) does not
carry the skipped tally. -/
theorem step4_return_does_not_carry_skipped :
    step4_return (step4_check_stock_and_prices [] [] [] (fun _ => none)) =
      step4_return (step4_check_stock_and_prices ([⟨"S", 1, .pending⟩] : List PendingRow)
        ([⟨"S", 0, none⟩] : List StockRow) [] (fun _ => none)) ∧
    (step4_check_stock_and_prices [] [] [] (fun _ => none)).skippedPending ≠
      (step4_check_stock_and_prices ([⟨"S", 1, .pending⟩] : List PendingRow)
        ([⟨"S", 0, none⟩] : List StockRow) [] (fun _ => none)).skippedPending := by
  exact ⟨by decide, by decide⟩

/-- C3 (amended): a scanner run returns exactly the pair (total checked,
total available); the skipped-due-to-pending tally — the number of
zero-stock rows whose SKU has a pending-order row — is computed and
logged but is not part of the returned value. -/
theorem step4_tallies (pending : List PendingRow) (stock : List StockRow)
    (mapTable : List MappingRow) (live : String → Option FonedayProduct) :
    step4_return (step4_check_stock_and_prices pending stock mapTable live) =
      ((step4_check_stock_and_prices pending stock mapTable live).checked,
        (step4_check_stock_and_prices pending stock mapTable live).available) ∧
    (step4_check_stock_and_prices pending stock mapTable live).skippedPending =
      ((stock.filter (fun r => decide (r.stock_quantity ≤ 0))).filter
        (fun p => pendingHas pending p.sku)).length := by
  refine ⟨rfl, ?_⟩
  unfold step4_check_stock_and_prices
  rw [step4_fold_skipped_count]
  simp

/-- C4 counterexample: at the spec's scenario (cost €10, storefront
100 RON, fx 5.1, vat 1.21) the code's rounded margin is 38.29 percent,
not the 38.23 the spec states. -/
theorem margin_scenario_not_38_23 :
    calculate_profit_margin cfgDefault 10 100 ≠ (38.23 : ℚ) ∧
    calculate_profit_margin cfgDefault 10 100 = (38.29 : ℚ) := by
  constructor
  · simp only [calculate_profit_margin, cfgDefault, pyRound2, round_eq]
    norm_num
  · simp only [calculate_profit_margin, cfgDefault, pyRound2, round_eq]
    norm_num

/-- C4 (amended): in the end-to-end scenario (cost €10, storefront
100 RON, fx 5.1, vat 1.21) the local cost is exactly 51, the net sale
price is within 0.005 of 82.64, the cost ratio is exactly 0.6171 which
is below the 0.88 threshold, the rounded margin is 38.29 (not 38.23),
and the committer issues one external call of quantity 2 and writes
exactly one `added_to_cart` cart row for the candidate. -/
theorem step5_profit_scenario :
    (10 : ℚ) * cfgDefault.eur_ron_rate = 51 ∧
    (82.64 : ℚ) - 1/100 < (100 : ℚ) / cfgDefault.tva_rate ∧
    (100 : ℚ) / cfgDefault.tva_rate < (82.64 : ℚ) + 1/100 ∧
    ((10 : ℚ) * cfgDefault.eur_ron_rate) / ((100 : ℚ) / cfgDefault.tva_rate) = 0.6171 ∧
    (0.6171 : ℚ) < cfgDefault.min_profit_margin ∧
    calculate_profit_margin cfgDefault 10 100 = 38.29 ∧
    step5_add_to_cart cfgDefault (fun s => if s = "X" then some 100 else none)
      (fun _ => true) [⟨some 1, "X", "Y", 10, true⟩] =
      ⟨[("Y", 2)], [⟨some 1, "X", "Y", 2, 10, 100, 38.29, true, .added_to_cart⟩], 1, 0⟩ := by
  refine ⟨?_, ?_, ?_, ?_, ?_, ?_, ?_⟩
  · simp only [cfgDefault]; norm_num
  · simp only [cfgDefault]; norm_num
  · simp only [cfgDefault]; norm_num
  · simp only [cfgDefault]; norm_num
  · simp only [cfgDefault]; norm_num
  · simp only [calculate_profit_margin, cfgDefault, pyRound2, round_eq]; norm_num
  · simp only [step5_add_to_cart, List.filter, List.foldl]
    norm_num [is_profitable, calculate_profit_margin, cfgDefault, pyRound2, round_eq]

/-- C8: with the primary internal SKU S1 and the normalized rows
(F1, S1) and (F2, S1), the mapper emits exactly two mapping rows for
S1, one per supplier SKU, never deduplicated to one; and in general
every emitted mapping row stems from an `is_primary` internal SKU row
whose `sku` it carries. -/
theorem buildMappings_two_rows_primary_only :
    buildMappings [⟨"S1", 7, true⟩] [⟨"F1", "S1"⟩, ⟨"F2", "S1"⟩] =
      ([⟨"S1", "S1", "F1", 7⟩, ⟨"S1", "S1", "F2", 7⟩] : List MappingRow) ∧
    ∀ (catalog : List ProductSkuRow) (artrows : List ArtcodeRow) (row : MappingRow),
      row ∈ buildMappings catalog artrows →
        ∃ c ∈ catalog, c.is_primary = true ∧ row.my_sku = c.sku := by
  refine ⟨by decide, ?_⟩
  intro catalog artrows row hrow
  have h := (foldl_append_mem (mappingsFor artrows) (primarySkus catalog) [] row).mp hrow
  rcases h with h | ⟨c, hc, hm⟩
  · simp at h
  · obtain ⟨m, _, rfl⟩ := List.mem_map.mp hm
    have hc2 := List.mem_filter.mp hc
    exact ⟨c, hc2.1, by simpa using hc2.2, rfl⟩

/-- The write loop attempts every chunk as long as the error budget is
not exhausted: with at most `5 - st.errors` failures ahead, the
attempted indices are exactly the remaining range. -/
theorem writeChunksAux_attempted (ok : ℕ → Bool) (chunks : List (List MappingRow)) :
    ∀ (i : ℕ) (st : WriteState),
      st.errors + countFails ok i chunks.length ≤ 5 →
      (writeChunksAux ok chunks i st).attempted =
        st.attempted ++ List.range' i chunks.length := by
  induction chunks with
  | nil => intro i st _; simp [writeChunksAux]
  | cons c rest ih =>
    intro i st h
    unfold writeChunksAux
    cases hok : ok i with
    | true =>
      simp [List.length_cons, countFails, hok] at h
      simp only [hok, if_true]
      rw [ih (i + 1) _ (by simpa using h)]
      simp [List.range'_succ]
    | false =>
      simp [List.length_cons, countFails, hok] at h
      simp only [hok, Bool.false_eq_true, if_false]
      rw [if_neg (by omega)]
      rw [ih (i + 1) _ (by simp; omega)]
      simp [List.range'_succ]

/-- C5 (amended): a chunk upsert failure is logged and skipped and the
mapper continues with the remaining chunks — but only while at most
five failures have occurred in the run: whenever at most five chunks
fail, every chunk is attempted.  A sixth failure aborts the remaining
chunks (see the counterexample). -/
theorem step3_write_attempts_all_chunks (mappings : List MappingRow) (ok : ℕ → Bool)
    (h : countFails ok 0 (toChunks 499 mappings).length ≤ 5) :
    (step3_write mappings ok).attempted = List.range (toChunks 499 mappings).length := by
  unfold step3_write
  rw [writeChunksAux_attempted ok _ 0 _ (by simpa using h)]
  simp [List.range_eq_range']

/-- C5 witness: a one-chunk run whose upsert succeeds attempts its
single chunk. -/
theorem step3_write_attempts_all_chunks_witness :
    (step3_write ([⟨"S", "A", "F", 0⟩] : List MappingRow) (fun _ => true)).attempted =
      List.range (toChunks 499 ([⟨"S", "A", "F", 0⟩] : List MappingRow)).length :=
  step3_write_attempts_all_chunks _ _ (by decide)

/-- C5 counterexample: with seven chunks all failing, the write loop
(lines 624-639, entered at chunk index 0 with no prior errors) attempts
only chunks 0-5: the sixth failure trips the `errors > 5` break and
chunk 6 is never attempted — the mapper does not continue with all
remaining chunks for any number of failures. -/
theorem writeChunks_sixth_failure_aborts :
    writeChunksAux (fun _ => false)
        (List.replicate 7 ([⟨"S", "A", "F", 0⟩] : List MappingRow)) 0 ⟨0, 0, []⟩ =
      ⟨0, 6, [0, 1, 2, 3, 4, 5]⟩ ∧
    6 ∉ (writeChunksAux (fun _ => false)
        (List.replicate 7 ([⟨"S", "A", "F", 0⟩] : List MappingRow)) 0 ⟨0, 0, []⟩).attempted := by
  exact ⟨by decide, by decide⟩

/-- C6: for a positive sale price and a positive VAT multiplier, the
acceptance check accepts exactly when the cost ratio is strictly below
the configured threshold, and a candidate whose ratio equals the
threshold exactly is rejected. -/
theorem is_profitable_iff_strict (cfg : Config) (c s : ℚ)
    (hs : 0 < s) (hv : 0 < cfg.tva_rate) :
    (is_profitable cfg c s = true ↔
      (c * cfg.eur_ron_rate) / (s / cfg.tva_rate) < cfg.min_profit_margin) ∧
    ((c * cfg.eur_ron_rate) / (s / cfg.tva_rate) = cfg.min_profit_margin →
      is_profitable cfg c s = false) := by
  constructor
  · simp [is_profitable]
  · intro h
    simp [is_profitable, h]

/-- C6 witness: the acceptance check at the default configuration, cost
€10 and sale price 100 RON. -/
theorem is_profitable_iff_strict_witness :
    (is_profitable cfgDefault 10 100 = true ↔
      ((10 : ℚ) * cfgDefault.eur_ron_rate) / ((100 : ℚ) / cfgDefault.tva_rate) <
        cfgDefault.min_profit_margin) ∧
    (((10 : ℚ) * cfgDefault.eur_ron_rate) / ((100 : ℚ) / cfgDefault.tva_rate) =
        cfgDefault.min_profit_margin →
      is_profitable cfgDefault 10 100 = false) :=
  is_profitable_iff_strict cfgDefault 10 100 (by norm_num) (by norm_num [cfgDefault])

/-- A SKU with a positive aggregated pending quantity has at least one
`status = pending` row, so it is a key of the pending dictionary. -/
theorem pendingQty_pos_has (rows : List PendingRow) (sku : String)
    (h : 0 < pendingQty rows sku) : pendingHas rows sku = true := by
  by_contra hfalse
  have hnone : rows.filter (fun r => r.status == .pending && r.sku == sku) = [] := by
    rw [List.filter_eq_nil_iff]
    intro r hr hp
    exact hfalse (List.any_eq_true.mpr ⟨r, hr, hp⟩)
  unfold pendingQty at h
  rw [hnone] at h
  simp at h

/-- C7: a zero-stock SKU whose aggregated pending quantity (sum of
`quantity` over its `status = pending` rows) is positive is never
queried against the live supplier API in the run: no live query of the
run carries it as its internal SKU. -/
theorem pending_sku_never_live_checked (pending : List PendingRow) (stock : List StockRow)
    (mapTable : List MappingRow) (live : String → Option FonedayProduct)
    (sku : String) (h : 0 < pendingQty pending sku) (fs : String) :
    (sku, fs) ∉ (step4_check_stock_and_prices pending stock mapTable live).liveQueries := by
  have hhas := pendingQty_pos_has pending sku h
  unfold step4_check_stock_and_prices
  have main : ∀ (zs : List StockRow) (acc : Step4Result),
      (sku, fs) ∉ acc.liveQueries →
      (sku, fs) ∉ (zs.foldl (step4_step pending mapTable live) acc).liveQueries := by
    intro zs
    induction zs with
    | nil => intro acc hacc; exact hacc
    | cons p rest ih =>
      intro acc hacc
      rw [List.foldl_cons]
      apply ih
      unfold step4_step
      cases hp : pendingHas pending p.sku with
      | true => simpa using hacc
      | false =>
        intro hmem
        rcases step4_mappings_queries live p _ acc _ hmem with hmem | hfst
        · exact hacc hmem
        · rw [show (sku, fs).1 = sku from rfl] at hfst
          rw [← hfst] at hp
          simp [hp] at hhas
  exact main _ _ (by simp)

/-- C7 witness: SKU S has one pending order of quantity 1; it is
zero-stock and mapped to supplier SKU F, yet the pair (S, F) is never
live-queried. -/
theorem pending_sku_never_live_checked_witness :
    ("S", "F") ∉ (step4_check_stock_and_prices ([⟨"S", 1, .pending⟩] : List PendingRow)
      ([⟨"S", 0, none⟩] : List StockRow) ([⟨"S", "S", "F", 1⟩] : List MappingRow)
      (fun _ => some ⟨"Y", some 1, "t", "q"⟩)).liveQueries :=
  pending_sku_never_live_checked _ _ _ _ "S" (by decide) "F"

/-- One synchronizer step queues no price write for a SKU that is in the
stock snapshot but absent from the price snapshot. -/
theorem step1_process_price_inv (stockSnap : String → Option ℤ)
    (priceSnap : String → Option ℚ) (catalog : String → Option ℕ) (sku : String)
    (hstock : (stockSnap sku).isSome) (hprice : priceSnap sku = none)
    (st : Step1State) (p : FeedProduct)
    (h1 : ∀ e ∈ st.newPrice, e.sku ≠ sku) (h2 : ∀ e ∈ st.updPrice, e.1 ≠ sku) :
    (∀ e ∈ (step1_process stockSnap priceSnap catalog st p).newPrice, e.sku ≠ sku) ∧
    (∀ e ∈ (step1_process stockSnap priceSnap catalog st p).updPrice, e.1 ≠ sku) := by
  unfold step1_process
  by_cases hsku : p.sku = ""
  · rw [if_pos hsku]; exact ⟨h1, h2⟩
  · rw [if_neg hsku]
    by_cases hpsku : p.sku = sku
    · obtain ⟨q, hq⟩ := Option.isSome_iff_exists.mp hstock
      have hpc : step1_price_changed priceSnap p = false := by
        unfold step1_price_changed
        rw [hpsku, hprice]
      rw [hpsku, hq]
      simp only [Option.isNone_some, Bool.false_eq_true, if_false, hpc, Bool.or_false]
      split
      · exact ⟨h1, h2⟩
      · exact ⟨h1, h2⟩
    · split
      · -- new product: the appended price insert carries p.sku ≠ sku
        refine ⟨?_, h2⟩
        intro e he
        rcases List.mem_append.mp he with he | he
        · exact h1 e he
        · simp only [List.mem_singleton] at he
          subst he
          exact hpsku
      · split
        · split
          · split
            · refine ⟨h1, ?_⟩
              intro e he
              rcases List.mem_append.mp he with he | he
              · exact h2 e he
              · simp only [List.mem_singleton] at he
                subst he
                exact hpsku
            · exact ⟨h1, h2⟩
          · split
            · refine ⟨h1, ?_⟩
              intro e he
              rcases List.mem_append.mp he with he | he
              · exact h2 e he
              · simp only [List.mem_singleton] at he
                subst he
                exact hpsku
            · exact ⟨h1, h2⟩
        · exact ⟨h1, h2⟩

/-- C9: a feed product whose SKU is in the preloaded stock snapshot but
absent from the preloaded price snapshot queues no price-table write —
neither an insert nor an update — in the whole run, whatever its
current price: it is not new, and its price-changed flag requires
membership in the price snapshot. -/
theorem step1_no_price_write_without_price_snapshot
    (stockSnap : String → Option ℤ) (priceSnap : String → Option ℚ)
    (catalog : String → Option ℕ) (feed : List FeedProduct) (sku : String)
    (hstock : (stockSnap sku).isSome) (hprice : priceSnap sku = none) :
    (∀ e ∈ (step1_import_woocommerce stockSnap priceSnap catalog feed).newPrice,
      e.sku ≠ sku) ∧
    (∀ e ∈ (step1_import_woocommerce stockSnap priceSnap catalog feed).updPrice,
      e.1 ≠ sku) := by
  unfold step1_import_woocommerce
  have main : ∀ (ps : List FeedProduct) (st : Step1State),
      (∀ e ∈ st.newPrice, e.sku ≠ sku) → (∀ e ∈ st.updPrice, e.1 ≠ sku) →
      (∀ e ∈ (ps.foldl (step1_process stockSnap priceSnap catalog) st).newPrice,
        e.sku ≠ sku) ∧
      (∀ e ∈ (ps.foldl (step1_process stockSnap priceSnap catalog) st).updPrice,
        e.1 ≠ sku) := by
    intro ps
    induction ps with
    | nil => intro st h1 h2; exact ⟨h1, h2⟩
    | cons p rest ih =>
      intro st h1 h2
      rw [List.foldl_cons]
      obtain ⟨g1, g2⟩ :=
        step1_process_price_inv stockSnap priceSnap catalog sku hstock hprice st p h1 h2
      exact ih _ g1 g2
  exact main feed step1Init (by simp [step1Init]) (by simp [step1Init])

/-- C9 witness: the SKU A is in the stock snapshot (quantity 5) and not
in the price snapshot; a feed page carrying it with price 9 queues no
price write. -/
theorem step1_no_price_write_witness :
    (∀ e ∈ (step1_import_woocommerce (fun s => if s = "A" then some 5 else none)
        (fun _ => none) (fun _ => some 1)
        ([⟨"A", some 3, some 9, 11⟩] : List FeedProduct)).newPrice, e.sku ≠ "A") ∧
    (∀ e ∈ (step1_import_woocommerce (fun s => if s = "A" then some 5 else none)
        (fun _ => none) (fun _ => some 1)
        ([⟨"A", some 3, some 9, 11⟩] : List FeedProduct)).updPrice, e.1 ≠ "A") :=
  step1_no_price_write_without_price_snapshot _ _ _ _ "A" (by decide) rfl

/-- C10: every snapshot row a scanner run upserts has `instock = true`
and carries the live supplier record's price; no row is written for a
mapping whose live record does not report `instock == "Y"`. -/
theorem snapshots_live_instock (pending : List PendingRow) (stock : List StockRow)
    (mapTable : List MappingRow) (live : String → Option FonedayProduct)
    (r : SnapshotRow)
    (hr : r ∈ (step4_check_stock_and_prices pending stock mapTable live).snapshots) :
    r.instock = true ∧ ∃ fp, live r.foneday_sku = some fp ∧ fp.instock = "Y" ∧
      r.price_eur = fp.price.getD 0 := by
  unfold step4_check_stock_and_prices at hr
  have main : ∀ (zs : List StockRow) (acc : Step4Result),
      (∀ x ∈ acc.snapshots, x.instock = true ∧ ∃ fp, live x.foneday_sku = some fp ∧
        fp.instock = "Y" ∧ x.price_eur = fp.price.getD 0) →
      ∀ x ∈ (zs.foldl (step4_step pending mapTable live) acc).snapshots,
        x.instock = true ∧ ∃ fp, live x.foneday_sku = some fp ∧ fp.instock = "Y" ∧
          x.price_eur = fp.price.getD 0 := by
    intro zs
    induction zs with
    | nil => intro acc hacc; exact hacc
    | cons p rest ih =>
      intro acc hacc
      rw [List.foldl_cons]
      apply ih
      unfold step4_step
      cases hp : pendingHas pending p.sku with
      | true => simpa using hacc
      | false =>
        intro x hx
        rcases step4_mappings_snapshots live p _ acc x hx with hx | hgood
        · exact hacc x hx
        · exact hgood
  exact main _ _ (by simp) r hr

/-- C10 witness: the run that snapshots the pair (T, FY) from a live
record reporting `instock = "Y"` at price €7. -/
theorem snapshots_live_instock_witness :
    (⟨some 3, "T", "FY", 7, true, "t", "q"⟩ : SnapshotRow).instock = true ∧
    ∃ fp, (fun f => if f = "FY" then some (⟨"Y", some 7, "t", "q"⟩ : FonedayProduct)
        else none) (⟨some 3, "T", "FY", 7, true, "t", "q"⟩ : SnapshotRow).foneday_sku =
        some fp ∧
      fp.instock = "Y" ∧
      (⟨some 3, "T", "FY", 7, true, "t", "q"⟩ : SnapshotRow).price_eur =
        fp.price.getD 0 :=
  snapshots_live_instock [] ([⟨"T", 0, some 3⟩] : List StockRow)
    ([⟨"T", "T", "FY", 9⟩] : List MappingRow)
    (fun f => if f = "FY" then some ⟨"Y", some 7, "t", "q"⟩ else none)
    ⟨some 3, "T", "FY", 7, true, "t", "q"⟩ (by decide)

end FonedayModel
